import Mathlib

/-!
A shallow embedding of the drip-posting web application (`src/app.py`) and
proofs about its observable behavior.

Pure helpers (`_log`, `rules_disallow_referrals`, `is_megathread_title`,
cadence arithmetic, the dedup key) are translated directly.  The stateful
worker `drip_worker` is embedded as explicit state passing: external
interactions (authentication, discovery output, the random choice index,
reply submission results, random jitter draws) are supplied by a
per-iteration environment, and the `while True:` loop is run over a finite
list of such environments (a run prefix).  Machine time (`time.sleep`,
timestamps) is not modeled; log entries carry no timestamp field.
Python exceptions are modeled with `Except` / an explicit `crash` outcome.
-/

namespace App

/-- One entry of `STATE["logs"]`.  Mirrors the keyword arguments the
various `_log` call sites in `src/app.py` pass; absent fields default to
the empty value (the CSV exporter renders missing fields empty). -/
structure LogEntry where
  level : String := ""
  event : String := ""
  sub : String := ""
  title : String := ""
  url : String := ""
  comment_id : String := ""
  error : String := ""
  reason : String := ""
  user : String := ""
  seconds : Int := 0
  count : Nat := 0
  running : Bool := true
deriving DecidableEq, Repr

/-- `_log` from `src/app.py` lines 48-53: append the entry, then truncate
to the most recent 2000 entries (`STATE["logs"] = STATE["logs"][-2000:]`)
whenever the length exceeds 2000. -/
def log_append (logs : List LogEntry) (e : LogEntry) : List LogEntry :=
  let l := logs ++ [e]
  if 2000 < l.length then l.drop (l.length - 2000) else l

/-- `PROHIBIT_PATTERNS` from `src/app.py` lines 56-59. -/
def PROHIBIT_PATTERNS : List String :=
  ["no referrals", "no referral", "no codes", "no promo codes", "no self-promotion",
   "no self promotion", "referrals not allowed", "no affiliate", "no affiliate links"]

/-- `MEGATHREAD_REQUIRED_PATTERNS` from `src/app.py` lines 60-62. -/
def MEGATHREAD_REQUIRED_PATTERNS : List String :=
  ["referrals only in", "referrals allowed only in", "post referrals only in",
   "megathread", "weekly thread"]

/-- Python `s.startswith`-style check on character lists. -/
def listStarts : List Char → List Char → Bool
  | [], _ => true
  | _ :: _, [] => false
  | a :: as, b :: bs => a == b && listStarts as bs

/-- Substring occurrence on character lists (Python `pat in blob`). -/
def listHasRun (pat : List Char) : List Char → Bool
  | [] => listStarts pat []
  | b :: bs => listStarts pat (b :: bs) || listHasRun pat bs

/-- Python `pat in hay` for strings. -/
def strContains (hay pat : String) : Bool :=
  listHasRun pat.data hay.data

/-- Python `str.lower` (all pattern text in the source is ASCII). -/
def pyLower (s : String) : String :=
  ⟨s.data.map Char.toLower⟩

/-- One subreddit rule as consumed by `rules_disallow_referrals`:
`r.short_name` and `r.description`. -/
structure SubRule where
  short_name : String
  description : String
deriving DecidableEq, Repr

/-- The lower-cased blob built in `rules_disallow_referrals` lines 148-153:
each rule contributes `short_name ++ " " ++ description`, then the
subreddit description is appended, all joined with single spaces. -/
def rulesBlob (rules : List SubRule) (about : String) : String :=
  pyLower (String.intercalate " "
    ((rules.map (fun r => r.short_name ++ " " ++ r.description)) ++ [about]))

/-- `rules_disallow_referrals` from `src/app.py` lines 145-160.  Fetching
the rules and description over the network can fail; the fetch outcome is
the `Except` input.  On failure the function returns
`(False, False, "rules_error:...")`. -/
def rules_disallow_referrals (fetch : Except String (List SubRule × String)) :
    Bool × Bool × String :=
  match fetch with
  | .error e => (false, false, "rules_error:" ++ e)
  | .ok (rules, about) =>
    let blob := rulesBlob rules about
    (PROHIBIT_PATTERNS.any (fun pat => strContains blob pat),
     MEGATHREAD_REQUIRED_PATTERNS.any (fun pat => strContains blob pat),
     "rules_checked")

/-- `is_megathread_title` from `src/app.py` lines 141-143. -/
def is_megathread_title (title : String) : Bool :=
  let t := pyLower title
  strContains t "megathread" || (strContains t "weekly" && strContains t "thread")

/-- The dedup key `f"{s}_{submission.id}"` built at `src/app.py`
lines 393 and 404. -/
def targetKey (s id : String) : String :=
  s ++ "_" ++ id

/-- Python truncation `int(q)` for an exact rational: the quotient of
numerator by denominator rounded toward zero. -/
def pyInt (q : ℚ) : ℤ :=
  Int.tdiv q.num q.den

/-- `cadence_seconds = max(10, int(3600 / posts_per_hour))` from
`src/app.py` line 357. -/
def cadence_seconds (posts_per_hour : ℚ) : ℤ :=
  max 10 (pyInt (3600 / posts_per_hour))

/-- Python `random.randint(lo, hi)` fed by an external draw `r`:
raises `ValueError` when the range is empty (`hi < lo`), otherwise
returns a value in `[lo, hi]`. -/
def pyRandint (lo hi : Int) (r : Nat) : Except String Int :=
  if hi < lo then .error "ValueError: empty range for randrange"
  else .ok (lo + (r : Int) % (hi - lo + 1))

/-- The configuration fields `drip_worker` reads out of its `config`
dict (`src/app.py` lines 331-366) that drive the control flow modeled
here.  The copy-engine inputs (message, brand, code, link, discount,
tone, emoji level, disclaimer) only influence the text of the generated
reply, which no modeled observable depends on, so they are omitted. -/
structure Config where
  per_sub_limit : Nat
  max_total_posts : Nat
  posts_per_hour : ℚ
  jitter_seconds : Int
  only_megathreads : Bool
  dry_run : Bool

/-- One candidate thread as yielded by `find_candidate_threads`:
the subreddit name, the submission (id, title, permalink), and the
subreddit's rule flags. -/
structure Candidate where
  sub : String
  id : String
  title : String
  permalink : String
  disallow : Bool
  mega_only : Bool
deriving DecidableEq, Repr

/-- The fields of a successful `submission.reply` result that the
worker reads (`reply.id`, `reply.permalink`). -/
structure PostReply where
  id : String
  permalink : String
deriving DecidableEq, Repr

/-- External inputs consumed by one pass of the `while True:` body of
`drip_worker`: the shared stop flag as read at the top of the iteration,
the clock comparisons against `start_at` / `end_at`, the candidate
sequence produced by discovery this iteration, the `random.choice`
draw, the outcome of `submission.reply`, and the `random.randint`
draw for jitter. -/
structure IterEnv where
  stopRequested : Bool
  beforeStart : Bool
  endReached : Bool
  candidates : List Candidate
  pickIdx : Nat
  postResult : Except String PostReply
  jitterRand : Nat

/-- External inputs for a whole run: the `reddit.user.me()` outcome
(`.error ()` models the Unauthorized exception), the logs already in
`STATE["logs"]` when the run starts, and the per-iteration inputs (the
run is observed for finitely many iterations). -/
structure RunEnv where
  authResult : Except Unit String
  initLogs : List LogEntry
  iters : List IterEnv

/-- The worker-local mutable state of `drip_worker` plus the pieces of
the global `STATE` it writes: `posted`, `seen_targets` (dict modeled as
the list of inserted keys), `per_sub_counts` and `STATE["summary"]`
(dicts with default 0), `STATE["logs"]`, and a trace `targeted`
recording, in order, each (subreddit, submission id) pair chosen at
`src/app.py` lines 403-405. -/
structure WState where
  posted : Nat
  seen_targets : List String
  per_sub_counts : String → Nat
  summary : String → Nat
  logs : List LogEntry
  targeted : List (String × String)

/-- Outcome of one loop iteration: fall through to the next iteration,
`break` out of the loop, or an uncaught Python exception propagating
out of the `while` loop. -/
inductive IterOut where
  | cont (st : WState)
  | brk (st : WState)
  | crash (st : WState) (e : String)

/-- The state carried by an iteration outcome. -/
def IterOut.st : IterOut → WState
  | .cont s => s
  | .brk s => s
  | .crash s _ => s

/-- Whether the iteration fell through to the next one. -/
def IterOut.isCont : IterOut → Bool
  | .cont _ => true
  | .brk _ => false
  | .crash _ _ => false

/-- How the observed run ended: a `break` out of the loop, the observed
iteration prefix was exhausted with the loop still running, or an
uncaught exception killed the worker thread. -/
inductive RunOutcome where
  | finished
  | truncated
  | crashed (e : String)
deriving DecidableEq, Repr

/-- Result of an observed run: final state, how the loop ended, and the
final `STATE["running"]` flag. -/
structure RunResult where
  state : WState
  outcome : RunOutcome
  running : Bool

/-- The `post_failed` log entry from `src/app.py` line 423. -/
def postFailedEntry (sub title err : String) : LogEntry :=
  { level := "error", event := "post_failed", sub := sub, title := title, error := err }

/-- The `sleep` log entry from `src/app.py` line 427. -/
def sleepEntry (delay : Int) : LogEntry :=
  { level := "info", event := "sleep", seconds := delay }

/-- The `total_cap_reached` log entry from `src/app.py` line 420. -/
def totalCapEntry (n : Nat) : LogEntry :=
  { level := "info", event := "total_cap_reached", count := n }

/-- The `dry_run_match` log entry from `src/app.py` line 411. -/
def dryRunEntry (sub title url : String) : LogEntry :=
  { level := "info", event := "dry_run_match", sub := sub, title := title, url := url }

/-- The `comment_posted` log entry from `src/app.py` line 417. -/
def commentPostedEntry (sub title cid url : String) : LogEntry :=
  { level := "success", event := "comment_posted", sub := sub, title := title,
    comment_id := cid, url := url }

/-- The `stop_requested` log entry from `src/app.py` line 370. -/
def stopRequestedEntry : LogEntry :=
  { level := "warn", event := "stop_requested" }

/-- The `end_time_reached` log entry from `src/app.py` line 378. -/
def endTimeEntry : LogEntry :=
  { level := "info", event := "end_time_reached" }

/-- The `auth_ok` log entry from `src/app.py` line 325. -/
def authOkEntry (me : String) : LogEntry :=
  { level := "info", event := "auth_ok", user := me }

/-- The `auth_failed` log entry from `src/app.py` line 327. -/
def authFailedEntry : LogEntry :=
  { level := "error", event := "auth_failed", reason := "No valid refresh token" }

/-- The `job_done` log entry from `src/app.py` line 432. -/
def jobDoneEntry : LogEntry :=
  { level := "info", event := "job_done", running := false }

/-- The `skip_rules_disallow` log entry from `src/app.py` line 386. -/
def skipRulesEntry (sub title : String) : LogEntry :=
  { level := "info", event := "skip_rules_disallow", sub := sub, title := title }

/-- The `skip_not_megathread` log entry from `src/app.py` line 389. -/
def skipMegaEntry (sub title : String) : LogEntry :=
  { level := "info", event := "skip_not_megathread", sub := sub, title := title }

/-- The candidate-filtering loop of `drip_worker` (`src/app.py` lines
382-396): drop disallowed candidates (logging `skip_rules_disallow`),
drop non-megathread titles when required (logging `skip_not_megathread`),
drop subreddits at their per-sub cap, drop already-seen dedup keys,
and keep the rest in order.  It reads `per_sub_counts` and
`seen_targets` and only appends to the log. -/
def buildCandidates (cfg : Config) (counts : String → Nat) (seen : List String) :
    List Candidate → List LogEntry → List LogEntry × List Candidate
  | [], logs => (logs, [])
  | c :: rest, logs =>
    if c.disallow then
      buildCandidates cfg counts seen rest (log_append logs (skipRulesEntry c.sub c.title))
    else if (cfg.only_megathreads || c.mega_only) && !is_megathread_title c.title then
      buildCandidates cfg counts seen rest (log_append logs (skipMegaEntry c.sub c.title))
    else if cfg.per_sub_limit ≤ counts c.sub then
      buildCandidates cfg counts seen rest logs
    else if targetKey c.sub c.id ∈ seen then
      buildCandidates cfg counts seen rest logs
    else
      ((buildCandidates cfg counts seen rest logs).1,
       c :: (buildCandidates cfg counts seen rest logs).2)

/-- The reddit URL prefix used at `src/app.py` lines 411 and 417. -/
def redditUrl (permalink : String) : String :=
  "https://www.reddit.com" ++ permalink

/-- The total-cap check at `src/app.py` lines 419-421: `break` with a
`total_cap_reached` entry when `posted >= max_total_posts and not
dry_run`. -/
def capCheck (cfg : Config) (st : WState) : IterOut :=
  if cfg.max_total_posts ≤ st.posted && !cfg.dry_run then
    .brk { st with logs := log_append st.logs (totalCapEntry st.posted) }
  else .cont st

/-- The guarded posting block of `drip_worker` (`src/app.py` lines
407-423, the `try:` body plus its `except`): dry runs log
`dry_run_match`; otherwise the reply is submitted — on success the
total and per-sub counters and `STATE["summary"]` are bumped and
`comment_posted` is logged, on failure the exception is caught and
logged as `post_failed` and the loop falls through to the sleep. -/
def postBlock (cfg : Config) (st : WState) (c : Candidate) (ie : IterEnv) : IterOut :=
  if cfg.dry_run then
    capCheck cfg
      { st with logs := log_append st.logs (dryRunEntry c.sub c.title (redditUrl c.permalink)) }
  else
    match ie.postResult with
    | .error e =>
      .cont { st with logs := log_append st.logs (postFailedEntry c.sub c.title e) }
    | .ok rep =>
      capCheck cfg
        { st with
          posted := st.posted + 1,
          per_sub_counts := fun t => if t = c.sub then st.per_sub_counts c.sub + 1
                                     else st.per_sub_counts t,
          summary := fun t => if t = c.sub then st.per_sub_counts c.sub + 1
                              else st.summary t,
          logs := log_append st.logs
            (commentPostedEntry c.sub c.title rep.id (redditUrl rep.permalink)) }

/-- The sleep at the bottom of the loop (`src/app.py` lines 426-428):
`delay = cadence_seconds + random.randint(0, jitter)`.  `randint`
raises `ValueError` when `jitter` is negative, and that exception is
outside the posting `try:`, so it propagates and kills the worker. -/
def sleepStep (cfg : Config) (st : WState) (ie : IterEnv) : IterOut :=
  match pyRandint 0 cfg.jitter_seconds ie.jitterRand with
  | .error e => .crash st e
  | .ok r =>
    .cont { st with logs := log_append st.logs (sleepEntry (cadence_seconds cfg.posts_per_hour + r)) }

/-- The `random.choice(candidates)` draw at `src/app.py` line 403,
fed by the environment index: an in-range index into the non-empty
candidate list. -/
def chosenCand (ie : IterEnv) (c0 : Candidate) (cs : List Candidate) : Candidate :=
  (c0 :: cs).getD (ie.pickIdx % (cs.length + 1)) c0

/-- Lines 403-405 of `src/app.py`: adopt the filter-pass log `L`, mark
the chosen candidate's dedup key as seen (`seen_targets[key] = True`),
and record the chosen (subreddit, id) pair in the `targeted` trace. -/
def markTarget (st : WState) (L : List LogEntry) (c : Candidate) : WState :=
  { st with
    logs := L,
    seen_targets := st.seen_targets ++ [targetKey c.sub c.id],
    targeted := st.targeted ++ [(c.sub, c.id)] }

/-- Lines 402-428 of `src/app.py` once the filtered candidate list is
non-empty: choose a candidate, mark it seen, run the guarded posting
block, and — unless the block broke out of or crashed the loop — run the
jittered sleep. -/
def pickAndPost (cfg : Config) (st : WState) (ie : IterEnv) (L : List LogEntry)
    (c0 : Candidate) (cs : List Candidate) : IterOut :=
  match postBlock cfg (markTarget st L (chosenCand ie c0 cs)) (chosenCand ie c0 cs) ie with
  | .cont st2 => sleepStep cfg st2 ie
  | .brk st2 => .brk st2
  | .crash st2 e => .crash st2 e

/-- One pass of the `while True:` body of `drip_worker` (`src/app.py`
lines 368-428): stop check, start/end time checks, candidate filtering,
the dry-spell backoff (`time.sleep(5); continue`), and — when candidates
survive — the choose/mark/post/sleep tail. -/
def dripIter (cfg : Config) (st : WState) (ie : IterEnv) : IterOut :=
  if ie.stopRequested then
    .brk { st with logs := log_append st.logs stopRequestedEntry }
  else if ie.beforeStart then
    .cont st
  else if ie.endReached then
    .brk { st with logs := log_append st.logs endTimeEntry }
  else
    match buildCandidates cfg st.per_sub_counts st.seen_targets ie.candidates st.logs with
    | (L, []) => .cont { st with logs := L }
    | (L, c0 :: cs) => pickAndPost cfg st ie L c0 cs

/-- The `while True:` loop, observed over a finite prefix of
per-iteration environments. -/
def dripLoop (cfg : Config) : List IterEnv → WState → WState × RunOutcome
  | [], st => (st, .truncated)
  | ie :: rest, st =>
    match dripIter cfg st ie with
    | .cont st' => dripLoop cfg rest st'
    | .brk st' => (st', .finished)
    | .crash st' e => (st', .crashed e)

/-- The top-level names bound in the module scope of `src/app.py`
(imports at lines 13-25 and top-level definitions), used to model
Python name resolution inside `drip_worker`. -/
def moduleGlobalNames : List String :=
  ["os", "csv", "io", "time", "random", "threading", "dt", "List", "Dict", "Optional",
   "urlencode", "Flask", "render_template", "request", "jsonify", "redirect", "url_for",
   "session", "Response", "send_from_directory", "abort", "CORS", "praw", "prawcore",
   "SECRET", "REDDIT_CLIENT_ID", "REDDIT_CLIENT_SECRET", "REDDIT_REDIRECT_URI",
   "DEFAULT_USER_AGENT", "app", "STATE", "_log", "PROHIBIT_PATTERNS",
   "MEGATHREAD_REQUIRED_PATTERNS", "DEFAULT_ALLOWLIST", "DEFAULT_GENERIC_QUERIES",
   "PRESETS", "build_reddit", "is_megathread_title", "rules_disallow_referrals",
   "find_candidate_threads", "SYNONYMS", "CTA_TEMPLATES", "OPENERS", "CLOSERS",
   "spin_piece", "spin_template", "generate_variant", "drip_worker", "index",
   "presets_json", "oauth_login", "oauth_callback", "logout", "start", "stop",
   "progress", "export_csv", "static_files"]

/-- Python builtins relevant to name resolution in this module. -/
def pyBuiltinNames : List String :=
  ["Exception", "BaseException", "NameError", "ValueError", "TypeError", "KeyError",
   "AttributeError", "ZeroDivisionError", "int", "float", "str", "bool", "len", "any",
   "all", "list", "dict", "set", "tuple", "range", "sorted", "print"]

/-- Whether a bare name used inside a function body of `src/app.py`
resolves (module global or builtin; no enclosing local bindings are
relevant for the names modeled here). -/
def nameResolvable (n : String) : Bool :=
  moduleGlobalNames.contains n || pyBuiltinNames.contains n

/-- The message of the `NameError` raised when the `except Unauthorized:`
clause at `src/app.py` line 326 is evaluated. -/
def nameErrorUnauthorized : String :=
  "NameError: name Unauthorized is not defined"

/-- `drip_worker` from `src/app.py` lines 309-432, as observed over the
finite environment `env`.  The worker-local state starts empty; the
authentication step either logs `auth_ok` and enters the loop, or — on
an authentication exception — evaluates the `except Unauthorized:`
clause: if the name `Unauthorized` resolved, the written handler would
log `auth_failed` and return, but since it does not resolve, a
`NameError` propagates instead.  The `finally:` block (lines 430-432)
always clears `STATE["running"]` and logs `job_done`. -/
def drip_worker (cfg : Config) (env : RunEnv) : RunResult :=
  let st0 : WState :=
    { posted := 0, seen_targets := [], per_sub_counts := fun _ => 0,
      summary := fun _ => 0, logs := env.initLogs, targeted := [] }
  match env.authResult with
  | .ok me =>
    let st1 := { st0 with logs := log_append st0.logs (authOkEntry me) }
    let r := dripLoop cfg env.iters st1
    { state := { r.1 with logs := log_append r.1.logs jobDoneEntry },
      outcome := r.2, running := false }
  | .error _ =>
    if nameResolvable "Unauthorized" then
      let st1 := { st0 with logs := log_append st0.logs authFailedEntry }
      { state := { st1 with logs := log_append st1.logs jobDoneEntry },
        outcome := .finished, running := false }
    else
      { state := { st0 with logs := log_append st0.logs jobDoneEntry },
        outcome := .crashed nameErrorUnauthorized, running := false }

/-- The pieces of the global `STATE` dict touched by the control
surface: the stored credential, the running flag, and the stop flag. -/
structure GState where
  refresh_token : Option String
  running : Bool
  stop_requested : Bool
deriving DecidableEq, Repr

/-- The `/stop` route (`src/app.py` lines 499-502): set the stop flag
and return `ok=True` unconditionally. -/
def stop_route (g : GState) : GState × Bool :=
  ({ g with stop_requested := true }, true)

/-- The first two statements of `drip_worker` (`src/app.py` lines
310-311): the worker unconditionally sets `running` and clears
`stop_requested` when it starts. -/
def drip_worker_globals_init (g : GState) : GState :=
  { g with running := true, stop_requested := false }

/-- Python truthiness of an optional string (`None` and `""` are
falsy). -/
def pyTruthy : Option String → Bool
  | none => false
  | some s => !s.isEmpty

/-- The request body fields the `/start` route validates. -/
structure StartData where
  message : Option String

/-- Possible responses of the `/start` route. -/
inductive StartResult where
  | conflict
  | unauthorized
  | missingFields (fields : List String)
  | launched
deriving DecidableEq, Repr

/-- The `/start` route (`src/app.py` lines 482-497): reject when a job
is running (400) or no refresh token is held (401); then
`required = ["message"]` and any falsy required field is reported as
missing (400); otherwise the worker thread is launched. -/
def start_route (g : GState) (data : StartData) : StartResult :=
  if g.running then .conflict
  else if !pyTruthy g.refresh_token then .unauthorized
  else
    let missing := (["message"]).filter (fun _ => !pyTruthy data.message)
    if !missing.isEmpty then .missingFields missing
    else .launched

/-! ### Derived predicates used in theorem statements -/

/-- No entry of the log records a `stop_requested` event. -/
def stopFree (l : List LogEntry) : Prop :=
  ∀ le ∈ l, le.event ≠ "stop_requested"

/-! ### Concrete scenario data used by counterexamples and witnesses -/

/-- A plain configuration: 1 post per sub, 10 posts total, 1 post/hour,
30s jitter, megathreads only, live posting. -/
def cfgLive : Config :=
  { per_sub_limit := 1, max_total_posts := 10, posts_per_hour := 1, jitter_seconds := 30,
    only_megathreads := true, dry_run := false }

/-- The same configuration with a total cap of zero. -/
def cfgCapZero : Config :=
  { cfgLive with max_total_posts := 0 }

/-- A dry-run configuration whose `jitter_seconds` config value is
negative. -/
def cfgNegJitter : Config :=
  { cfgLive with max_total_posts := 5, jitter_seconds := -1, dry_run := true }

/-- A live configuration that does not restrict to megathreads and
allows 2 posts per sub. -/
def cfgOpen : Config :=
  { cfgLive with per_sub_limit := 2, jitter_seconds := 0, only_megathreads := false }

/-- A megathread-titled candidate in an allowing subreddit. -/
def candMega : Candidate :=
  { sub := "Referrals", id := "t1", title := "Weekly referral megathread",
    permalink := "/r/Referrals/t1", disallow := false, mega_only := false }

/-- A candidate in subreddit `a_b` with thread id `c`. -/
def candAB : Candidate :=
  { sub := "a_b", id := "c", title := "referral codes", permalink := "/r/ab/c",
    disallow := false, mega_only := false }

/-- A candidate in subreddit `a` with thread id `b_c` — a pair distinct
from `("a_b", "c")` whose dedup key nevertheless coincides. -/
def candA : Candidate :=
  { sub := "a", id := "b_c", title := "referral codes", permalink := "/r/a/bc",
    disallow := false, mega_only := false }

/-- An iteration whose discovery yields `candMega` and whose reply
submission succeeds. -/
def iterMegaOk : IterEnv :=
  { stopRequested := false, beforeStart := false, endReached := false,
    candidates := [candMega], pickIdx := 0,
    postResult := .ok { id := "cm1", permalink := "/r/Referrals/t1/cm1" }, jitterRand := 3 }

/-- An iteration whose discovery yields `candAB` and whose reply
submission succeeds. -/
def iterAB : IterEnv :=
  { stopRequested := false, beforeStart := false, endReached := false,
    candidates := [candAB], pickIdx := 0,
    postResult := .ok { id := "k1", permalink := "/p1" }, jitterRand := 0 }

/-- An iteration whose discovery yields `candA` and whose reply
submission would succeed. -/
def iterA2 : IterEnv :=
  { stopRequested := false, beforeStart := false, endReached := false,
    candidates := [candA], pickIdx := 0,
    postResult := .ok { id := "k2", permalink := "/p2" }, jitterRand := 0 }

/-- A run that authenticates and then performs `iterMegaOk`. -/
def envMegaOk : RunEnv :=
  { authResult := .ok "me", initLogs := [], iters := [iterMegaOk] }

/-- A run whose authentication raises (invalid/expired credential). -/
def envAuthFail : RunEnv :=
  { authResult := .error (), initLogs := [], iters := [] }

/-- An iteration whose discovery yields `candMega` and whose reply
submission raises. -/
def iterPostFail : IterEnv :=
  { stopRequested := false, beforeStart := false, endReached := false,
    candidates := [candMega], pickIdx := 0,
    postResult := .error "APIException", jitterRand := 5 }

/-- A run that targets `("a_b", "c")` and then discovers `("a", "b_c")`. -/
def envKeyClash : RunEnv :=
  { authResult := .ok "me", initLogs := [], iters := [iterAB, iterA2] }

/-- The empty worker state. -/
def stEmpty : WState :=
  { posted := 0, seen_targets := [], per_sub_counts := fun _ => 0,
    summary := fun _ => 0, logs := [], targeted := [] }

/-- An idle global state holding a credential. -/
def gIdle : GState :=
  { refresh_token := some "tok", running := false, stop_requested := false }

/-- A start request whose seed message is the empty string. -/
def emptyMsgData : StartData :=
  { message := some "" }

/-- A subreddit rule whose description prohibits referrals. -/
def ruleNoRef : SubRule :=
  { short_name := "Rules", description := "No referrals or affiliate links allowed" }

/-! ## Helper lemmas -/

theorem getD_mem_or {α : Type} : ∀ (l : List α) (i : Nat) (d : α),
    l.getD i d ∈ l ∨ l.getD i d = d
  | [], _, _ => Or.inr rfl
  | _ :: _, 0, _ => Or.inl (List.mem_cons_self _ _)
  | _ :: t, i + 1, d =>
    match getD_mem_or t i d with
    | Or.inl h => Or.inl (List.mem_cons_of_mem _ h)
    | Or.inr h => Or.inr h

/-- The chosen candidate is one of the surviving candidates. -/
theorem chosenCand_mem (ie : IterEnv) (c0 : Candidate) (cs : List Candidate) :
    chosenCand ie c0 cs ∈ c0 :: cs := by
  rcases getD_mem_or (c0 :: cs) (ie.pickIdx % (cs.length + 1)) c0 with h | h
  · exact h
  · rw [chosenCand, h]
    exact List.mem_cons_self _ _

/-- Every candidate surviving the filter pass is in a subreddit below
its per-sub cap and carries a dedup key not yet seen. -/
theorem buildCandidates_sound (cfg : Config) (counts : String → Nat) (seen : List String) :
    ∀ (cands : List Candidate) (logs : List LogEntry),
      ∀ c ∈ (buildCandidates cfg counts seen cands logs).2,
        counts c.sub < cfg.per_sub_limit ∧ targetKey c.sub c.id ∉ seen := by
  intro cands
  induction cands with
  | nil => intro logs c hc; simp [buildCandidates] at hc
  | cons a rest ih =>
    intro logs c hc
    rw [buildCandidates] at hc
    split at hc
    · exact ih _ c hc
    · split at hc
      · exact ih _ c hc
      · split at hc
        · exact ih _ c hc
        · split at hc
          · exact ih _ c hc
          · rcases List.mem_cons.mp hc with rfl | hmem
            · next h1 h2 h3 h4 => exact ⟨Nat.lt_of_not_le h3, h4⟩
            · exact ih _ c hmem

/-- `capCheck` only appends to the log. -/
theorem capCheck_frame (cfg : Config) (st : WState) :
    (capCheck cfg st).st.posted = st.posted ∧
    (capCheck cfg st).st.per_sub_counts = st.per_sub_counts ∧
    (capCheck cfg st).st.seen_targets = st.seen_targets ∧
    (capCheck cfg st).st.targeted = st.targeted := by
  unfold capCheck
  split <;> simp [IterOut.st]

/-- If `capCheck` did not break on a non-dry run, the total is still
strictly below the cap. -/
theorem capCheck_isCont_posted (cfg : Config) (st : WState)
    (h : (capCheck cfg st).isCont = true) (hdry : cfg.dry_run = false) :
    st.posted < cfg.max_total_posts := by
  unfold capCheck at h
  split at h
  · simp [IterOut.isCont] at h
  · next hcond =>
    rw [hdry] at hcond
    simpa using hcond

/-- The posting block never touches the dedup set or the target trace. -/
theorem postBlock_frame (cfg : Config) (st : WState) (c : Candidate) (ie : IterEnv) :
    (postBlock cfg st c ie).st.seen_targets = st.seen_targets ∧
    (postBlock cfg st c ie).st.targeted = st.targeted := by
  unfold postBlock
  split
  · constructor
    · rw [(capCheck_frame cfg _).2.2.1]
    · rw [(capCheck_frame cfg _).2.2.2]
  · split
    · simp [IterOut.st]
    · constructor
      · rw [(capCheck_frame cfg _).2.2.1]
      · rw [(capCheck_frame cfg _).2.2.2]

/-- The jittered sleep only appends to the log. -/
theorem sleepStep_frame (cfg : Config) (st : WState) (ie : IterEnv) :
    (sleepStep cfg st ie).st.posted = st.posted ∧
    (sleepStep cfg st ie).st.per_sub_counts = st.per_sub_counts ∧
    (sleepStep cfg st ie).st.seen_targets = st.seen_targets ∧
    (sleepStep cfg st ie).st.targeted = st.targeted := by
  unfold sleepStep
  split <;> simp [IterOut.st]

/-- Cap preservation through the posting block: assuming all counters
are within bounds, the chosen sub is strictly below its cap and the
total is strictly below the total cap, the block keeps every counter
within bounds, and strictly below the total cap whenever it falls
through to the sleep. -/
theorem postBlock_caps (cfg : Config) (st : WState) (c : Candidate) (ie : IterEnv)
    (hcnt : ∀ s, st.per_sub_counts s ≤ cfg.per_sub_limit)
    (hc : st.per_sub_counts c.sub < cfg.per_sub_limit)
    (hp : st.posted < cfg.max_total_posts) :
    (∀ s, (postBlock cfg st c ie).st.per_sub_counts s ≤ cfg.per_sub_limit) ∧
    (postBlock cfg st c ie).st.posted ≤ cfg.max_total_posts ∧
    ((postBlock cfg st c ie).isCont = true →
      (postBlock cfg st c ie).st.posted < cfg.max_total_posts) := by
  unfold postBlock
  split
  · have hfr := capCheck_frame cfg
      { st with logs := log_append st.logs (dryRunEntry c.sub c.title (redditUrl c.permalink)) }
    refine ⟨?_, ?_, ?_⟩
    · intro s; rw [hfr.2.1]; exact hcnt s
    · rw [hfr.1]; exact le_of_lt hp
    · intro _; rw [hfr.1]; exact hp
  · split
    · exact ⟨hcnt, le_of_lt hp, fun _ => hp⟩
    · next hdry _ rep _ =>
      have hdry' : cfg.dry_run = false := by
        revert hdry
        cases cfg.dry_run <;> simp
      have hfr := capCheck_frame cfg
        { st with
          posted := st.posted + 1,
          per_sub_counts := fun t => if t = c.sub then st.per_sub_counts c.sub + 1
                                     else st.per_sub_counts t,
          summary := fun t => if t = c.sub then st.per_sub_counts c.sub + 1
                              else st.summary t,
          logs := log_append st.logs
            (commentPostedEntry c.sub c.title rep.id (redditUrl rep.permalink)) }
      refine ⟨?_, ?_, ?_⟩
      · intro s
        rw [hfr.2.1]
        by_cases hs : s = c.sub
        · simp only [hs, if_true, eq_self_iff_true]
          omega
        · simp only [if_neg hs]
          exact hcnt s
      · rw [hfr.1]
        exact Nat.succ_le_of_lt hp
      · intro hcont
        have := capCheck_isCont_posted cfg _ hcont hdry'
        rw [hfr.1]
        exact this

/-- Cap preservation through choose/mark/post/sleep. -/
theorem pickAndPost_caps (cfg : Config) (st : WState) (ie : IterEnv) (L : List LogEntry)
    (c0 : Candidate) (cs : List Candidate)
    (hcnt : ∀ s, st.per_sub_counts s ≤ cfg.per_sub_limit)
    (hp : st.posted < cfg.max_total_posts)
    (hc : st.per_sub_counts (chosenCand ie c0 cs).sub < cfg.per_sub_limit) :
    (∀ s, (pickAndPost cfg st ie L c0 cs).st.per_sub_counts s ≤ cfg.per_sub_limit) ∧
    (pickAndPost cfg st ie L c0 cs).st.posted ≤ cfg.max_total_posts ∧
    ((pickAndPost cfg st ie L c0 cs).isCont = true →
      (pickAndPost cfg st ie L c0 cs).st.posted < cfg.max_total_posts) := by
  have hall := postBlock_caps cfg (markTarget st L (chosenCand ie c0 cs))
    (chosenCand ie c0 cs) ie hcnt hc hp
  unfold pickAndPost
  generalize hpb : postBlock cfg (markTarget st L (chosenCand ie c0 cs))
    (chosenCand ie c0 cs) ie = pb at hall ⊢
  cases pb with
  | cont st2 =>
    have hfr := sleepStep_frame cfg st2 ie
    dsimp only [IterOut.st, IterOut.isCont] at hall
    refine ⟨?_, ?_, ?_⟩
    · intro s; rw [hfr.2.1]; exact hall.1 s
    · rw [hfr.1]; exact hall.2.1
    · intro _
      rw [hfr.1]
      exact hall.2.2 rfl
  | brk st2 =>
    refine ⟨hall.1, hall.2.1, ?_⟩
    intro h
    simp [IterOut.isCont] at h
  | crash st2 e =>
    refine ⟨hall.1, hall.2.1, ?_⟩
    intro h
    simp [IterOut.isCont] at h

/-- Cap preservation through a whole loop iteration. -/
theorem dripIter_caps (cfg : Config) (st : WState) (ie : IterEnv)
    (hcnt : ∀ s, st.per_sub_counts s ≤ cfg.per_sub_limit)
    (hp : st.posted < cfg.max_total_posts) :
    (∀ s, (dripIter cfg st ie).st.per_sub_counts s ≤ cfg.per_sub_limit) ∧
    (dripIter cfg st ie).st.posted ≤ cfg.max_total_posts ∧
    ((dripIter cfg st ie).isCont = true → (dripIter cfg st ie).st.posted < cfg.max_total_posts) := by
  unfold dripIter
  split
  · exact ⟨hcnt, le_of_lt hp, fun _ => hp⟩
  · split
    · exact ⟨hcnt, le_of_lt hp, fun _ => hp⟩
    · split
      · exact ⟨hcnt, le_of_lt hp, fun _ => hp⟩
      · rcases hB : buildCandidates cfg st.per_sub_counts st.seen_targets ie.candidates st.logs
          with ⟨L, CS⟩
        cases CS with
        | nil => exact ⟨hcnt, le_of_lt hp, fun _ => hp⟩
        | cons c0 cs =>
          have hsound := buildCandidates_sound cfg st.per_sub_counts st.seen_targets
            ie.candidates st.logs (chosenCand ie c0 cs)
            (by rw [hB]; exact chosenCand_mem ie c0 cs)
          exact pickAndPost_caps cfg st ie L c0 cs hcnt hp hsound.1

/-- Cap preservation through the whole observed loop. -/
theorem dripLoop_caps (cfg : Config) :
    ∀ (iters : List IterEnv) (st : WState),
      (∀ s, st.per_sub_counts s ≤ cfg.per_sub_limit) →
      st.posted < cfg.max_total_posts →
      (∀ s, (dripLoop cfg iters st).1.per_sub_counts s ≤ cfg.per_sub_limit) ∧
      (dripLoop cfg iters st).1.posted ≤ cfg.max_total_posts := by
  intro iters
  induction iters with
  | nil => intro st hcnt hp; exact ⟨hcnt, le_of_lt hp⟩
  | cons ie rest ih =>
    intro st hcnt hp
    have hit := dripIter_caps cfg st ie hcnt hp
    rw [dripLoop]
    rcases hI : dripIter cfg st ie with st' | st' | ⟨st', e⟩
    · rw [hI] at hit
      dsimp only [IterOut.st, IterOut.isCont] at hit
      exact ih st' hit.1 (hit.2.2 rfl)
    · rw [hI] at hit
      dsimp only [IterOut.st] at hit
      exact ⟨hit.1, hit.2.1⟩
    · rw [hI] at hit
      dsimp only [IterOut.st] at hit
      exact ⟨hit.1, hit.2.1⟩

/-- Per-community counter preservation through the posting block, with
no assumption on the total count: the chosen sub only needs to be below
its own cap, which the filter guarantees. -/
theorem postBlock_counts (cfg : Config) (st : WState) (c : Candidate) (ie : IterEnv)
    (hcnt : ∀ s, st.per_sub_counts s ≤ cfg.per_sub_limit)
    (hc : st.per_sub_counts c.sub < cfg.per_sub_limit) :
    ∀ s, (postBlock cfg st c ie).st.per_sub_counts s ≤ cfg.per_sub_limit := by
  unfold postBlock
  split
  · intro s
    rw [(capCheck_frame cfg _).2.1]
    exact hcnt s
  · split
    · exact hcnt
    · next _ _ rep _ =>
      intro s
      rw [(capCheck_frame cfg _).2.1]
      by_cases hs : s = c.sub
      · simp only [hs, if_true, eq_self_iff_true]
        omega
      · simp only [if_neg hs]
        exact hcnt s

/-- Per-community counter preservation through choose/mark/post/sleep,
with no assumption on the total count. -/
theorem pickAndPost_counts (cfg : Config) (st : WState) (ie : IterEnv) (L : List LogEntry)
    (c0 : Candidate) (cs : List Candidate)
    (hcnt : ∀ s, st.per_sub_counts s ≤ cfg.per_sub_limit)
    (hc : st.per_sub_counts (chosenCand ie c0 cs).sub < cfg.per_sub_limit) :
    ∀ s, (pickAndPost cfg st ie L c0 cs).st.per_sub_counts s ≤ cfg.per_sub_limit := by
  have hall := postBlock_counts cfg (markTarget st L (chosenCand ie c0 cs))
    (chosenCand ie c0 cs) ie hcnt hc
  unfold pickAndPost
  generalize hpb : postBlock cfg (markTarget st L (chosenCand ie c0 cs))
    (chosenCand ie c0 cs) ie = pb at hall ⊢
  cases pb with
  | cont st2 =>
    intro s
    rw [(sleepStep_frame cfg st2 ie).2.1]
    exact hall s
  | brk st2 => exact hall
  | crash st2 e => exact hall

/-- Per-community counter preservation through one loop iteration, with
no assumption on the total count. -/
theorem dripIter_counts (cfg : Config) (st : WState) (ie : IterEnv)
    (hcnt : ∀ s, st.per_sub_counts s ≤ cfg.per_sub_limit) :
    ∀ s, (dripIter cfg st ie).st.per_sub_counts s ≤ cfg.per_sub_limit := by
  unfold dripIter
  split
  · exact hcnt
  · split
    · exact hcnt
    · split
      · exact hcnt
      · rcases hB : buildCandidates cfg st.per_sub_counts st.seen_targets ie.candidates st.logs
          with ⟨L, CS⟩
        cases CS with
        | nil => exact hcnt
        | cons c0 cs =>
          have hsound := buildCandidates_sound cfg st.per_sub_counts st.seen_targets
            ie.candidates st.logs (chosenCand ie c0 cs)
            (by rw [hB]; exact chosenCand_mem ie c0 cs)
          exact pickAndPost_counts cfg st ie L c0 cs hcnt hsound.1

/-- Per-community counter preservation through the whole observed loop,
with no assumption on the total count. -/
theorem dripLoop_counts (cfg : Config) :
    ∀ (iters : List IterEnv) (st : WState),
      (∀ s, st.per_sub_counts s ≤ cfg.per_sub_limit) →
      ∀ s, (dripLoop cfg iters st).1.per_sub_counts s ≤ cfg.per_sub_limit := by
  intro iters
  induction iters with
  | nil => intro st hcnt; exact hcnt
  | cons ie rest ih =>
    intro st hcnt
    have hit := dripIter_counts cfg st ie hcnt
    rw [dripLoop]
    rcases hI : dripIter cfg st ie with st' | st' | ⟨st', e⟩
    · rw [hI] at hit
      exact ih st' hit
    · rw [hI] at hit
      exact hit
    · rw [hI] at hit
      exact hit

/-- Choose/mark/post/sleep never changes the dedup set or the target
trace beyond the marking step itself. -/
theorem pickAndPost_frame (cfg : Config) (st : WState) (ie : IterEnv) (L : List LogEntry)
    (c0 : Candidate) (cs : List Candidate) :
    (pickAndPost cfg st ie L c0 cs).st.seen_targets =
      (markTarget st L (chosenCand ie c0 cs)).seen_targets ∧
    (pickAndPost cfg st ie L c0 cs).st.targeted =
      (markTarget st L (chosenCand ie c0 cs)).targeted := by
  have hfr := postBlock_frame cfg (markTarget st L (chosenCand ie c0 cs)) (chosenCand ie c0 cs) ie
  unfold pickAndPost
  generalize hpb : postBlock cfg (markTarget st L (chosenCand ie c0 cs))
    (chosenCand ie c0 cs) ie = pb at hfr ⊢
  cases pb with
  | cont st2 =>
    have hs := sleepStep_frame cfg st2 ie
    dsimp only [IterOut.st] at hfr
    exact ⟨hs.2.2.1.trans hfr.1, hs.2.2.2.trans hfr.2⟩
  | brk st2 => exact hfr
  | crash st2 e => exact hfr

/-- Dedup preservation through one iteration: the target trace stays
free of repetitions, and every targeted pair's key is recorded in the
dedup set. -/
theorem dripIter_targets (cfg : Config) (st : WState) (ie : IterEnv)
    (hnd : st.targeted.Nodup)
    (hkeys : ∀ p ∈ st.targeted, targetKey p.1 p.2 ∈ st.seen_targets) :
    (dripIter cfg st ie).st.targeted.Nodup ∧
    (∀ p ∈ (dripIter cfg st ie).st.targeted,
      targetKey p.1 p.2 ∈ (dripIter cfg st ie).st.seen_targets) := by
  unfold dripIter
  split
  · exact ⟨hnd, hkeys⟩
  · split
    · exact ⟨hnd, hkeys⟩
    · split
      · exact ⟨hnd, hkeys⟩
      · rcases hB : buildCandidates cfg st.per_sub_counts st.seen_targets ie.candidates st.logs
          with ⟨L, CS⟩
        cases CS with
        | nil => exact ⟨hnd, hkeys⟩
        | cons c0 cs =>
          have hsound := buildCandidates_sound cfg st.per_sub_counts st.seen_targets
            ie.candidates st.logs (chosenCand ie c0 cs)
            (by rw [hB]; exact chosenCand_mem ie c0 cs)
          have hfr := pickAndPost_frame cfg st ie L c0 cs
          have hnotmem : ((chosenCand ie c0 cs).sub, (chosenCand ie c0 cs).id) ∉ st.targeted := by
            intro hmem
            exact hsound.2 (hkeys _ hmem)
          constructor
          · rw [hfr.2]
            simp only [markTarget]
            refine List.Nodup.append hnd (List.nodup_singleton _) ?_
            intro p hp hq
            rcases List.mem_singleton.mp hq with rfl
            exact hnotmem hp
          · intro p hp
            rw [hfr.2] at hp
            rw [hfr.1]
            simp only [markTarget] at hp ⊢
            rcases List.mem_append.mp hp with h | h
            · exact List.mem_append_left _ (hkeys p h)
            · rcases List.mem_singleton.mp h with rfl
              exact List.mem_append_right _ (List.mem_singleton.mpr rfl)

/-- Dedup preservation through the whole observed loop. -/
theorem dripLoop_targets (cfg : Config) :
    ∀ (iters : List IterEnv) (st : WState),
      st.targeted.Nodup →
      (∀ p ∈ st.targeted, targetKey p.1 p.2 ∈ st.seen_targets) →
      (dripLoop cfg iters st).1.targeted.Nodup := by
  intro iters
  induction iters with
  | nil => intro st hnd _; exact hnd
  | cons ie rest ih =>
    intro st hnd hkeys
    have hit := dripIter_targets cfg st ie hnd hkeys
    rw [dripLoop]
    rcases hI : dripIter cfg st ie with st' | st' | ⟨st', e⟩
    · rw [hI] at hit
      dsimp only [IterOut.st] at hit
      exact ih st' hit.1 hit.2
    · rw [hI] at hit
      exact hit.1
    · rw [hI] at hit
      exact hit.1

/-- Every entry of the log after an append was already present or is the
appended entry. -/
theorem mem_log_append {logs : List LogEntry} {e le : LogEntry}
    (h : le ∈ log_append logs e) : le ∈ logs ∨ le = e := by
  have h' : le ∈ (if 2000 < (logs ++ [e]).length
      then (logs ++ [e]).drop ((logs ++ [e]).length - 2000) else (logs ++ [e])) := h
  split at h'
  · have := List.mem_of_mem_drop h'
    simpa using this
  · simpa using h' 

theorem stopFree_append {logs : List LogEntry} {e : LogEntry}
    (hl : stopFree logs) (he : e.event ≠ "stop_requested") :
    stopFree (log_append logs e) := by
  intro le hle
  rcases mem_log_append hle with h | rfl
  · exact hl le h
  · exact he

theorem buildCandidates_stopFree (cfg : Config) (counts : String → Nat) (seen : List String) :
    ∀ (cands : List Candidate) (logs : List LogEntry), stopFree logs →
      stopFree (buildCandidates cfg counts seen cands logs).1 := by
  intro cands
  induction cands with
  | nil => intro logs h; exact h
  | cons a rest ih =>
    intro logs h
    rw [buildCandidates]
    split
    · exact ih _ (stopFree_append h
        (by show ("skip_rules_disallow" : String) ≠ "stop_requested"; decide))
    · split
      · exact ih _ (stopFree_append h
          (by show ("skip_not_megathread" : String) ≠ "stop_requested"; decide))
      · split
        · exact ih _ h
        · split
          · exact ih _ h
          · exact ih _ h

theorem capCheck_stopFree (cfg : Config) (st : WState) (h : stopFree st.logs) :
    stopFree (capCheck cfg st).st.logs := by
  unfold capCheck
  split
  · exact stopFree_append h
      (by show ("total_cap_reached" : String) ≠ "stop_requested"; decide)
  · exact h

theorem postBlock_stopFree (cfg : Config) (st : WState) (c : Candidate) (ie : IterEnv)
    (h : stopFree st.logs) : stopFree (postBlock cfg st c ie).st.logs := by
  unfold postBlock
  split
  · exact capCheck_stopFree cfg _ (stopFree_append h
      (by show ("dry_run_match" : String) ≠ "stop_requested"; decide))
  · split
    · exact stopFree_append h
        (by show ("post_failed" : String) ≠ "stop_requested"; decide)
    · exact capCheck_stopFree cfg _ (stopFree_append h
        (by show ("comment_posted" : String) ≠ "stop_requested"; decide))

theorem sleepStep_stopFree (cfg : Config) (st : WState) (ie : IterEnv)
    (h : stopFree st.logs) : stopFree (sleepStep cfg st ie).st.logs := by
  unfold sleepStep
  split
  · exact h
  · exact stopFree_append h
      (by show ("sleep" : String) ≠ "stop_requested"; decide)

theorem pickAndPost_stopFree (cfg : Config) (st : WState) (ie : IterEnv) (L : List LogEntry)
    (c0 : Candidate) (cs : List Candidate) (hL : stopFree L) :
    stopFree (pickAndPost cfg st ie L c0 cs).st.logs := by
  have hpf := postBlock_stopFree cfg (markTarget st L (chosenCand ie c0 cs))
    (chosenCand ie c0 cs) ie hL
  unfold pickAndPost
  generalize hpb : postBlock cfg (markTarget st L (chosenCand ie c0 cs))
    (chosenCand ie c0 cs) ie = pb at hpf ⊢
  cases pb with
  | cont st2 => exact sleepStep_stopFree cfg st2 ie hpf
  | brk st2 => exact hpf
  | crash st2 e => exact hpf

theorem dripIter_stopFree (cfg : Config) (st : WState) (ie : IterEnv)
    (hstop : ie.stopRequested = false) (h : stopFree st.logs) :
    stopFree (dripIter cfg st ie).st.logs := by
  unfold dripIter
  split
  · next hc => rw [hstop] at hc; exact absurd hc (by simp)
  · split
    · exact h
    · split
      · exact stopFree_append h
          (by show ("end_time_reached" : String) ≠ "stop_requested"; decide)
      · rcases hB : buildCandidates cfg st.per_sub_counts st.seen_targets ie.candidates st.logs
          with ⟨L, CS⟩
        have hLf : stopFree L := by
          have hbf := buildCandidates_stopFree cfg st.per_sub_counts st.seen_targets
            ie.candidates st.logs h
          rw [hB] at hbf
          exact hbf
        cases CS with
        | nil => exact hLf
        | cons c0 cs => exact pickAndPost_stopFree cfg st ie L c0 cs hLf

theorem dripLoop_stopFree (cfg : Config) :
    ∀ (iters : List IterEnv) (st : WState),
      (∀ ie ∈ iters, ie.stopRequested = false) → stopFree st.logs →
      stopFree (dripLoop cfg iters st).1.logs := by
  intro iters
  induction iters with
  | nil => intro st _ h; exact h
  | cons ie rest ih =>
    intro st hflags h
    have hit := dripIter_stopFree cfg st ie (hflags ie (List.mem_cons_self _ _)) h
    rw [dripLoop]
    rcases hI : dripIter cfg st ie with st' | st' | ⟨st', e⟩
    · rw [hI] at hit
      exact ih st' (fun x hx => hflags x (List.mem_cons_of_mem _ hx)) hit
    · rw [hI] at hit
      exact hit
    · rw [hI] at hit
      exact hit

/-! ## Claim theorems -/

/-- Claim C1, counterexample: with a configured total cap of zero
(`max_total_posts = 0`) and one successful live post, the run ends with
one post — exceeding the configured total cap, because the cap check at
`src/app.py` line 419 runs only after a post has already been
submitted. -/
theorem c1_counterexample :
    ¬ ((drip_worker cfgCapZero envMegaOk).state.posted ≤ cfgCapZero.max_total_posts) := by
  decide

/-- Claim C1 (amended): in every observed run, every per-community
counter stays at or below `per_sub_limit`, unconditionally — including
a configured total cap of 0 — and, provided the configured total cap is
at least 1, the run-wide count of successful non-dry-run posts stays at
or below `max_total_posts`. -/
theorem c1_caps (cfg : Config) (env : RunEnv) :
    (∀ s, (drip_worker cfg env).state.per_sub_counts s ≤ cfg.per_sub_limit) ∧
    (1 ≤ cfg.max_total_posts →
      (drip_worker cfg env).state.posted ≤ cfg.max_total_posts) := by
  unfold drip_worker
  cases env.authResult with
  | error u =>
    dsimp only
    split
    · exact ⟨fun _ => Nat.zero_le _, fun _ => Nat.zero_le _⟩
    · exact ⟨fun _ => Nat.zero_le _, fun _ => Nat.zero_le _⟩
  | ok me =>
    dsimp only
    constructor
    · exact fun s => dripLoop_counts cfg env.iters
        { posted := 0, seen_targets := [], per_sub_counts := fun _ => 0,
          summary := fun _ => 0, logs := log_append env.initLogs (authOkEntry me),
          targeted := [] }
        (fun _ => Nat.zero_le _) s
    · intro hcap
      exact (dripLoop_caps cfg env.iters
        { posted := 0, seen_targets := [], per_sub_counts := fun _ => 0,
          summary := fun _ => 0, logs := log_append env.initLogs (authOkEntry me),
          targeted := [] }
        (fun _ => Nat.zero_le _) (Nat.lt_of_lt_of_le Nat.zero_lt_one hcap)).2

/-- Claim C1, witness of the amended theorem at concrete runs: the
per-community bound also at the zero total cap of the counterexample
run, and the total bound at a cap of 10. -/
theorem c1_caps_witness :
    (drip_worker cfgLive envMegaOk).state.per_sub_counts "Referrals" ≤ cfgLive.per_sub_limit ∧
    (drip_worker cfgCapZero envMegaOk).state.per_sub_counts "Referrals" ≤
      cfgCapZero.per_sub_limit ∧
    (drip_worker cfgLive envMegaOk).state.posted ≤ cfgLive.max_total_posts :=
  ⟨(c1_caps cfgLive envMegaOk).1 "Referrals",
   (c1_caps cfgCapZero envMegaOk).1 "Referrals",
   (c1_caps cfgLive envMegaOk).2 (by decide)⟩

/-- Claim C2: in every observed run, the trace of (community, thread-id)
pairs chosen as posting targets (marked seen, then replied-to or
dry-run-logged) has no repetition. -/
theorem c2_no_repeat_targets (cfg : Config) (env : RunEnv) :
    (drip_worker cfg env).state.targeted.Nodup := by
  unfold drip_worker
  cases env.authResult with
  | error u =>
    dsimp only
    split
    · exact List.nodup_nil
    · exact List.nodup_nil
  | ok me =>
    dsimp only
    exact dripLoop_targets cfg env.iters
      { posted := 0, seen_targets := [], per_sub_counts := fun _ => 0,
        summary := fun _ => 0, logs := log_append env.initLogs (authOkEntry me),
        targeted := [] }
      List.nodup_nil (fun p hp => absurd hp (List.not_mem_nil p))

/-- Claim C3: the name `Unauthorized` in the handler at `src/app.py`
line 326 does not resolve (it is never imported), so a run whose
authentication fails crashes with a `NameError`, never appends an
`auth_failed` entry, and only the `finally:` block runs (clearing the
running flag and logging `job_done`). -/
theorem c3_auth_failure_behavior :
    nameResolvable "Unauthorized" = false ∧
    (drip_worker cfgLive envAuthFail).outcome = .crashed nameErrorUnauthorized ∧
    (drip_worker cfgLive envAuthFail).running = false ∧
    ((drip_worker cfgLive envAuthFail).state.logs.all (fun le => le.event != "auth_failed")) = true ∧
    (drip_worker cfgLive envAuthFail).state.logs.map (fun le => le.event) = ["job_done"] := by
  exact ⟨by decide, by decide, by decide, by decide, by decide⟩

/-- Claim C4: on a successful fetch, the evaluator reports
disallowed (resp. megathread-only) exactly when some prohibition
(resp. megathread-required) pattern occurs in the lower-cased
concatenation of all rule texts and the description; on a fetch failure
it returns `(false, false)` with a `rules_error` memo. -/
theorem c4_rules_eval (fetch : Except String (List SubRule × String)) :
    (∀ rules about, fetch = .ok (rules, about) →
      (((rules_disallow_referrals fetch).1 = true) ↔
        ∃ pat ∈ PROHIBIT_PATTERNS, strContains (rulesBlob rules about) pat = true) ∧
      (((rules_disallow_referrals fetch).2.1 = true) ↔
        ∃ pat ∈ MEGATHREAD_REQUIRED_PATTERNS, strContains (rulesBlob rules about) pat = true)) ∧
    (∀ e, fetch = .error e →
      rules_disallow_referrals fetch = (false, false, "rules_error:" ++ e)) := by
  constructor
  · rintro rules about rfl
    constructor <;> simp [rules_disallow_referrals, List.any_eq_true]
  · rintro e rfl
    rfl

/-- Claim C4, witness: a rule text prohibiting referrals is reported as
disallowed, and a fetch failure is reported as `(false, false)` with an
error memo. -/
theorem c4_rules_eval_witness :
    (rules_disallow_referrals (.ok ([ruleNoRef], ""))).1 = true ∧
    rules_disallow_referrals (.error "boom") = (false, false, "rules_error:boom") := by
  constructor
  · exact ((c4_rules_eval _).1 _ _ rfl).1.mpr ⟨"no referrals", by decide, by decide⟩
  · exact (c4_rules_eval _).2 "boom" rfl

/-- Claim C5, counterexample: with `jitter_seconds = -1` the
`random.randint(0, jitter)` call at `src/app.py` line 426 — inside the
iteration but outside the posting `try:` — raises, so this unexpected
failure crashes the worker thread instead of degrading to a logged
error entry: the run ends `crashed`, no `error`-level entry is logged,
and the loop does not proceed. -/
theorem c5_counterexample :
    (drip_worker cfgNegJitter envMegaOk).outcome = .crashed "ValueError: empty range for randrange" ∧
    ((drip_worker cfgNegJitter envMegaOk).state.logs.all (fun le => le.level != "error")) = true ∧
    (drip_worker cfgNegJitter envMegaOk).state.logs.map (fun le => le.event) =
      ["auth_ok", "dry_run_match", "job_done"] := by
  exact ⟨by decide, by decide, by decide⟩

/-- Claim C5 (amended): failures raised inside the guarded posting block
are caught — a failed reply submission is logged as `post_failed`, the
counters are left unchanged, and the iteration falls through to the
jittered sleep and continues — while failures raised elsewhere in the
iteration (such as the jitter draw, see the counterexample) are not
caught and kill the worker. -/
theorem c5_post_failure_caught (cfg : Config) (st : WState) (ie : IterEnv)
    (L : List LogEntry) (c0 : Candidate) (cs : List Candidate) (e : String)
    (hstop : ie.stopRequested = false) (hbs : ie.beforeStart = false)
    (hend : ie.endReached = false)
    (hB : buildCandidates cfg st.per_sub_counts st.seen_targets ie.candidates st.logs =
      (L, c0 :: cs))
    (hdry : cfg.dry_run = false) (hpost : ie.postResult = .error e)
    (hj : 0 ≤ cfg.jitter_seconds) :
    dripIter cfg st ie = .cont
      { markTarget st L (chosenCand ie c0 cs) with
        logs := log_append
          (log_append L (postFailedEntry (chosenCand ie c0 cs).sub
            (chosenCand ie c0 cs).title e))
          (sleepEntry (cadence_seconds cfg.posts_per_hour +
            (ie.jitterRand : Int) % (cfg.jitter_seconds + 1))) } := by
  have hr : pyRandint 0 cfg.jitter_seconds ie.jitterRand =
      .ok ((ie.jitterRand : Int) % (cfg.jitter_seconds + 1)) := by
    rw [pyRandint, if_neg (by omega)]
    norm_num
  simp only [dripIter, pickAndPost, postBlock, sleepStep, markTarget, hstop, hbs, hend, hB,
    hdry, hpost, hr, Bool.false_eq_true, if_false]

/-- Claim C5, witness: a concrete iteration whose reply submission
raises continues into the sleep with a `post_failed` entry logged. -/
theorem c5_post_failure_caught_witness :
    dripIter cfgLive stEmpty iterPostFail = .cont
      { markTarget stEmpty [] (chosenCand iterPostFail candMega []) with
        logs := log_append
          (log_append [] (postFailedEntry (chosenCand iterPostFail candMega []).sub
            (chosenCand iterPostFail candMega []).title "APIException"))
          (sleepEntry (cadence_seconds cfgLive.posts_per_hour +
            (iterPostFail.jitterRand : Int) % (cfgLive.jitter_seconds + 1))) } :=
  c5_post_failure_caught cfgLive stEmpty iterPostFail [] candMega [] "APIException"
    rfl rfl rfl (by decide) rfl rfl (by decide)

/-- Claim C6: for `posts_per_hour > 0` the cadence equals
`max(10, floor(3600 / posts_per_hour))` — hence is at least 10 — and
(for a non-negative jitter bound) the iteration sleep logs a delay equal
to the cadence plus a draw from `[0, jitter_seconds]`. -/
theorem c6_cadence_jitter (cfg : Config) (st : WState) (ie : IterEnv)
    (hp : 0 < cfg.posts_per_hour) (hj : 0 ≤ cfg.jitter_seconds) :
    cadence_seconds cfg.posts_per_hour = max 10 ⌊(3600 : ℚ) / cfg.posts_per_hour⌋ ∧
    (10 : ℤ) ≤ cadence_seconds cfg.posts_per_hour ∧
    0 ≤ (ie.jitterRand : Int) % (cfg.jitter_seconds + 1) ∧
    (ie.jitterRand : Int) % (cfg.jitter_seconds + 1) ≤ cfg.jitter_seconds ∧
    sleepStep cfg st ie = .cont { st with logs := log_append st.logs (sleepEntry (cadence_seconds cfg.posts_per_hour + (ie.jitterRand : Int) % (cfg.jitter_seconds + 1))) } := by
  have hq : (0 : ℚ) ≤ 3600 / cfg.posts_per_hour := by positivity
  have hfloor : pyInt ((3600 : ℚ) / cfg.posts_per_hour) = ⌊(3600 : ℚ) / cfg.posts_per_hour⌋ := by
    rw [Rat.floor_def, pyInt, Int.tdiv_eq_ediv]
    · exact Rat.num_nonneg.mpr hq
    · exact Int.ofNat_nonneg _
  have hr : pyRandint 0 cfg.jitter_seconds ie.jitterRand =
      .ok ((ie.jitterRand : Int) % (cfg.jitter_seconds + 1)) := by
    rw [pyRandint, if_neg (by omega)]
    norm_num
  refine ⟨by rw [cadence_seconds, hfloor], le_max_left _ _,
    Int.emod_nonneg _ (by omega), ?_, ?_⟩
  · have := Int.emod_lt_of_pos (ie.jitterRand : Int) (b := cfg.jitter_seconds + 1) (by omega)
    omega
  · simp [sleepStep, hr]

/-- Claim C6, witness at a concrete configuration and iteration. -/
theorem c6_cadence_jitter_witness :
    (0 : ℚ) < cfgLive.posts_per_hour ∧ (0 : ℤ) ≤ cfgLive.jitter_seconds ∧
    (10 : ℤ) ≤ cadence_seconds cfgLive.posts_per_hour ∧
    sleepStep cfgLive stEmpty iterMegaOk = .cont { stEmpty with logs := log_append stEmpty.logs (sleepEntry (cadence_seconds cfgLive.posts_per_hour + (iterMegaOk.jitterRand : Int) % (cfgLive.jitter_seconds + 1))) } := by
  refine ⟨by norm_num [cfgLive], by norm_num [cfgLive], ?_, ?_⟩
  · exact (c6_cadence_jitter cfgLive stEmpty iterMegaOk (by norm_num [cfgLive])
      (by norm_num [cfgLive])).2.1
  · exact (c6_cadence_jitter cfgLive stEmpty iterMegaOk (by norm_num [cfgLive])
      (by norm_num [cfgLive])).2.2.2.2

/-- Claim C7: every call to the log appender leaves at most 2000
entries, the appended entry is always the newest retained one, and when
the log already holds 2000 entries the oldest entry is evicted. -/
theorem c7_log_cap (logs : List LogEntry) (e : LogEntry) :
    (log_append logs e).length ≤ 2000 ∧
    (log_append logs e).getLast? = some e ∧
    (logs.length = 2000 → log_append logs e = logs.drop 1 ++ [e]) := by
  unfold log_append
  by_cases h : 2000 < (logs ++ [e]).length
  · simp only [if_pos h]
    have hlen : (logs ++ [e]).length = logs.length + 1 := by simp
    have hle : (logs ++ [e]).length - 2000 ≤ logs.length := by omega
    have hdrop : (logs ++ [e]).drop ((logs ++ [e]).length - 2000) =
        logs.drop ((logs ++ [e]).length - 2000) ++ [e] := by
      rw [List.drop_append_eq_append_drop]
      have h0 : (logs ++ [e]).length - 2000 - logs.length = 0 := by omega
      rw [h0]
      rfl
    refine ⟨?_, ?_, ?_⟩
    · rw [List.length_drop]; omega
    · rw [hdrop, List.getLast?_concat]
    · intro h2000
      rw [hdrop]
      have hn : (logs ++ [e]).length - 2000 = 1 := by
        simp [h2000]
      rw [hn]
  · simp only [if_neg h]
    refine ⟨by simpa using Nat.le_of_not_lt h, List.getLast?_concat _, ?_⟩
    intro h2000
    exfalso
    apply h
    simp [h2000]

/-- Claim C7, witness: appending to a log of exactly 2000 entries drops
the oldest entry and keeps the new one last. -/
theorem c7_log_cap_witness :
    log_append (List.replicate 2000 jobDoneEntry) stopRequestedEntry =
      (List.replicate 2000 jobDoneEntry).drop 1 ++ [stopRequestedEntry] :=
  (c7_log_cap (List.replicate 2000 jobDoneEntry) stopRequestedEntry).2.2
    (by rw [List.length_replicate])

/-- Claim C8, counterexample: a start request with an empty seed
message is rejected with a missing-fields error — it does not launch
the worker, because the empty string is falsy in the `missing` check of
the `/start` route. -/
theorem c8_counterexample :
    start_route gIdle emptyMsgData = .missingFields ["message"] ∧
    start_route gIdle emptyMsgData ≠ .launched := by
  exact ⟨by decide, by decide⟩

/-- Claim C8 (amended): with no run active and a credential held, a
start request whose seed message is empty (or missing) is rejected with
`Missing fields: message`; no worker is launched. -/
theorem c8_empty_message_rejected (g : GState) (d : StartData)
    (hrun : g.running = false) (htok : pyTruthy g.refresh_token = true)
    (hmsg : pyTruthy d.message = false) :
    start_route g d = .missingFields ["message"] := by
  simp [start_route, hrun, htok, hmsg]

/-- Claim C8, witness of the amended theorem. -/
theorem c8_empty_message_rejected_witness :
    start_route gIdle emptyMsgData = .missingFields ["message"] :=
  c8_empty_message_rejected gIdle emptyMsgData rfl rfl rfl

/-- Claim C9: a stop request always reports success and sets the flag,
the worker unconditionally clears the flag when it starts (discarding
any stop requested while no run was active), and a run during which no
iteration observes the stop flag never logs a `stop_requested` event. -/
theorem c9_stop_reset (g : GState) ( _hrun : g.running = false) :
    (stop_route g).2 = true ∧
    (stop_route g).1.stop_requested = true ∧
    (drip_worker_globals_init (stop_route g).1).stop_requested = false ∧
    (∀ (cfg : Config) (env : RunEnv), (∀ ie ∈ env.iters, ie.stopRequested = false) →
      stopFree env.initLogs → stopFree (drip_worker cfg env).state.logs) := by
  refine ⟨rfl, rfl, rfl, ?_⟩
  intro cfg env hflags hinit
  unfold drip_worker
  cases env.authResult with
  | error u =>
    dsimp only
    split
    · exact stopFree_append
        (stopFree_append hinit
          (by show ("auth_failed" : String) ≠ "stop_requested"; decide))
        (by show ("job_done" : String) ≠ "stop_requested"; decide)
    · exact stopFree_append hinit
        (by show ("job_done" : String) ≠ "stop_requested"; decide)
  | ok me =>
    dsimp only
    have hl := dripLoop_stopFree cfg env.iters
      { posted := 0, seen_targets := [], per_sub_counts := fun _ => 0,
        summary := fun _ => 0, logs := log_append env.initLogs (authOkEntry me),
        targeted := [] }
      hflags
      (stopFree_append hinit
        (by show ("auth_ok" : String) ≠ "stop_requested"; decide))
    exact stopFree_append hl
      (by show ("job_done" : String) ≠ "stop_requested"; decide)

/-- Claim C9, witness: concrete stop-then-start discards the stop flag,
and a concrete stop-free run logs no `stop_requested` event. -/
theorem c9_stop_reset_witness :
    (stop_route gIdle).2 = true ∧
    (drip_worker_globals_init (stop_route gIdle).1).stop_requested = false ∧
    ((drip_worker cfgLive envMegaOk).state.logs.all
      (fun le => le.event != "stop_requested")) = true := by
  have h := c9_stop_reset gIdle rfl
  have hflags : ∀ ie ∈ envMegaOk.iters, ie.stopRequested = false := by decide
  have hinit : stopFree envMegaOk.initLogs := by
    intro le hle
    exact absurd hle (List.not_mem_nil le)
  have h4 := h.2.2.2 cfgLive envMegaOk hflags hinit
  exact ⟨h.1, h.2.2.1, List.all_eq_true.mpr (fun le hle => bne_iff_ne.mpr (h4 le hle))⟩

/-- Claim C10: the dedup keys of the distinct pairs `("a_b", "c")` and
`("a", "b_c")` coincide, and in a run that targeted only `("a_b", "c")`
the later candidate `("a", "b_c")` is filtered out as already seen, so
it is never targeted. -/
theorem c10_dedup_key_collision :
    targetKey "a_b" "c" = targetKey "a" "b_c" ∧
    (("a_b", "c") : String × String) ≠ ("a", "b_c") ∧
    (drip_worker cfgOpen envKeyClash).state.targeted = [("a_b", "c")] := by
  exact ⟨rfl, by decide, by decide⟩

end App
